import Mathlib

/-!
Verification development for the Aisle3 email-client backend
(`src-tauri/src`): a shallow embedding of its token lifecycle and
credential-custody subsystem — the rate limiter (`rate_limiter.rs`),
the secure credential store (`secure_storage.rs`), the OAuth token
authority (`gmail_auth.rs`) and the command handlers that orchestrate
them (`main.rs`) — together with theorems settling the specification's
claims about these components.

Modelling conventions:
* Rust `Instant`/`Duration` values are natural numbers of seconds;
  `Instant::duration_since` saturates at zero, mirrored by `Nat`
  subtraction.
* The network (Gmail REST calls, the OAuth token endpoint) is an
  oracle environment `NetEnv`: each upstream interaction's outcome is
  an input to the handler.  The request/response shaping inside
  `gmail_client.rs` is out of scope per the spec and enters only
  through these oracle outcomes.
* `serde_json` (an external library) is modelled at the JSON value
  level: `to_string` / `from_str` are the repository-visible field
  mappings `tokensToJson` / `jsonToTokens` on a `Json` value type; the
  string layer of `serde_json` itself is the identity embedding of
  values.
* The OS keyring is a single mutable slot (`KeyringState`), since the
  production backend addresses one fixed (service, key) entry.
* Handlers additionally emit an event trace (`Event`) recording, in
  order, rate-limit checks, credential reads, refresh attempts,
  persistence, and upstream network calls, so that ordering claims can
  be stated.
-/

namespace Aisle3

/-- `AuthTokens` from `gmail_auth.rs`: the stored OAuth credential. -/
structure AuthTokens where
  access_token : String
  refresh_token : Option String
  expires_in : Option Nat
deriving DecidableEq

/-- The fields the `oauth2` crate exposes from a provider token
response, as read by `exchange_code` and `refresh_access_token`. -/
structure TokenResponse where
  access_token : String
  refresh_token : Option String
  expires_in : Option Nat
deriving DecidableEq

/-- JSON values, as far as the credential blob needs them. -/
inductive Json where
  | null : Json
  | str : String → Json
  | num : Nat → Json
  | obj : List (String × Json) → Json

/-- Serialization of `AuthTokens` as `serde_json::to_string` produces it
(derived `Serialize`: each field in declaration order, `Option` as the
value or `null`). -/
def tokensToJson (t : AuthTokens) : Json :=
  .obj [("access_token", .str t.access_token),
        ("refresh_token", match t.refresh_token with
                          | none => .null
                          | some s => .str s),
        ("expires_in", match t.expires_in with
                       | none => .null
                       | some n => .num n)]

/-- Field lookup in a JSON object (first binding wins, as objects
produced here never repeat keys). -/
def jsonField : List (String × Json) → String → Option Json
  | [], _ => none
  | (k, v) :: rest, key => if k = key then some v else jsonField rest key

/-- Deserialization of `AuthTokens` as `serde_json::from_str` performs it
(derived `Deserialize`: `access_token` must be a string; the `Option`
fields accept a missing field or `null` as `None`). -/
def jsonToTokens (j : Json) : Option AuthTokens :=
  match j with
  | .obj fields =>
    match jsonField fields "access_token" with
    | some (.str a) =>
      let rt : Option (Option String) :=
        match jsonField fields "refresh_token" with
        | none => some none
        | some .null => some none
        | some (.str s) => some (some s)
        | some _ => none
      let ei : Option (Option Nat) :=
        match jsonField fields "expires_in" with
        | none => some none
        | some .null => some none
        | some (.num n) => some (some n)
        | some _ => none
      match rt, ei with
      | some r, some e => some ⟨a, r, e⟩
      | _, _ => none
    | _ => none
  | _ => none

/-! ## Secure storage (`secure_storage.rs`) -/

/-- The fixed service name `SERVICE_NAME` of `secure_storage.rs`. -/
def SERVICE_NAME : String := "com.aisle3.app"

/-- The fixed key `TOKEN_KEY` of `secure_storage.rs`. -/
def TOKEN_KEY : String := "gmail_tokens"

/-- State of the OS keyring as the production `KeyringBackend` sees it:
every method addresses the single entry `(SERVICE_NAME, TOKEN_KEY)`, so
the observable state is one optional blob (held at the JSON value
level) plus whether the backend is reachable (`Entry::new` /
`get_password` succeed at the OS layer). -/
structure KeyringState where
  entry : Option Json
  available : Bool

/-- `KeyringBackend::save_password`: the `_key` argument is ignored;
the blob is written to the fixed entry. -/
def savePassword (st : KeyringState) (_key : String) (password : Json) :
    Except String KeyringState :=
  if st.available then .ok { st with entry := some password }
  else .error "Failed to create keyring entry: backend unavailable"

/-- `KeyringBackend::get_password`: the `_key` argument is ignored;
reads the fixed entry, with `NoEntry` mapped to its own message. -/
def getPassword (st : KeyringState) (_key : String) : Except String Json :=
  if st.available then
    match st.entry with
    | some v => .ok v
    | none => .error "No tokens found in keyring"
  else .error "Failed to create keyring entry: backend unavailable"

/-- `KeyringBackend::delete_password`: the `_key` argument is ignored;
deleting an absent entry (`NoEntry`) is a success. -/
def deletePassword (st : KeyringState) (_key : String) :
    Except String KeyringState :=
  if st.available then .ok { st with entry := none }
  else .error "Failed to create keyring entry: backend unavailable"

/-- `KeyringBackend::has_password`: the `_key` argument is ignored; any
backend failure, including an unreachable backend, reads as `false`. -/
def hasPassword (st : KeyringState) (_key : String) : Bool :=
  if st.available then st.entry.isSome else false

/-- `SecureStorage::save_tokens`: serialize, then write under
`TOKEN_KEY`. -/
def saveTokens (st : KeyringState) (tokens : AuthTokens) :
    Except String KeyringState :=
  savePassword st TOKEN_KEY (tokensToJson tokens)

/-- `SecureStorage::load_tokens`: read under `TOKEN_KEY`, then
deserialize; a parse failure is its own error, distinct from
"nothing stored". -/
def loadTokens (st : KeyringState) : Except String AuthTokens :=
  match getPassword st TOKEN_KEY with
  | .error e => .error e
  | .ok j =>
    match jsonToTokens j with
    | none => .error "Failed to deserialize tokens"
    | some t => .ok t

/-- `SecureStorage::delete_tokens`. -/
def deleteTokens (st : KeyringState) : Except String KeyringState :=
  deletePassword st TOKEN_KEY

/-- `SecureStorage::has_tokens`. -/
def hasTokens (st : KeyringState) : Bool :=
  hasPassword st TOKEN_KEY

/-! ## Legacy-file migration (`migrate_from_file`) -/

/-- The legacy token file's directory, as a map from path to content
(content at the JSON value level; `none` = the path does not exist). -/
def fsRead : List (String × Json) → String → Option Json
  | [], _ => none
  | (p, c) :: rest, path => if p = path then some c else fsRead rest path

/-- `std::fs::remove_file` on the modelled directory. -/
def fsRemove : List (String × Json) → String → List (String × Json)
  | [], _ => []
  | (p, c) :: rest, path =>
    if p = path then fsRemove rest path else (p, c) :: fsRemove rest path

/-- Combined store-plus-filesystem state for the migration path. -/
structure StoreFs where
  store : KeyringState
  fs : List (String × Json)

/-- `SecureStorage::migrate_from_file`: a missing path is `Ok(false)`;
an existing file is read, parsed (a parse failure aborts with an error
before any write or delete), saved through the store, and then the
source file is removed, yielding `Ok(true)`.  The final state is
returned alongside the result in every case. -/
def migrateFromFile (s : StoreFs) (path : String) :
    Except String Bool × StoreFs :=
  match fsRead s.fs path with
  | none => (.ok false, s)
  | some j =>
    match jsonToTokens j with
    | none => (.error "Failed to parse token file", s)
    | some t =>
      match saveTokens s.store t with
      | .error e => (.error e, s)
      | .ok st2 => (.ok true, { store := st2, fs := fsRemove s.fs path })

/-! ## Callback parsing (`parse_callback_url`) -/

/-- Query parameters of the callback URL, as the decoded (key, value)
pairs in order of appearance.  `query_pairs().collect::<HashMap<_,_>>()`
makes the last occurrence of a repeated key win; `hashMapGet` mirrors
that insert-overwrites-then-get semantics. -/
def hashMapGet (params : List (String × String)) (key : String) :
    Option String :=
  params.foldl (fun acc p => if p.1 = key then some p.2 else acc) none

/-- `parse_callback_url` from `gmail_auth.rs`, over the parsed query
pairs: an `error` parameter fails first with the provider's error
string; then a missing `code` fails; otherwise the code and the
optional `state` are returned. -/
def parseCallbackUrl (params : List (String × String)) :
    Except String (String × Option String) :=
  match hashMapGet params "error" with
  | some e => .error ("OAuth error: " ++ e)
  | none =>
    match hashMapGet params "code" with
    | none => .error "No authorization code found"
    | some code => .ok (code, hashMapGet params "state")

/-! ## Rate limiter (`rate_limiter.rs`) -/

/-- One per-operation bucket (`RateLimit` in `rate_limiter.rs`):
recorded request instants, the cap, and the window length in
seconds. -/
structure RateLimit where
  requests : List Nat
  max_requests : Nat
  window_duration : Nat
deriving DecidableEq

/-- The lazily-created bucket for an operation name (the `or_insert_with`
match in `check_rate_limit`). -/
def policyFor (operation : String) : RateLimit :=
  if operation = "get_emails" then ⟨[], 10, 60⟩
  else if operation = "get_email_content" then ⟨[], 30, 60⟩
  else if operation = "send_reply" then ⟨[], 10, 60⟩
  else if operation = "mark_email_as_read" then ⟨[], 20, 60⟩
  else if operation = "mark_email_as_unread" then ⟨[], 20, 60⟩
  else if operation = "get_inbox_stats" then ⟨[], 20, 60⟩
  else if operation = "check_for_new_emails_since_last_check" then ⟨[], 30, 60⟩
  else ⟨[], 10, 60⟩

/-- The limiter's bucket map, keyed by operation name. -/
def getEntry : List (String × RateLimit) → String → Option RateLimit
  | [], _ => none
  | (k, v) :: rest, op => if k = op then some v else getEntry rest op

/-- Write-back of one bucket into the map (insert when absent). -/
def setEntry : List (String × RateLimit) → String → RateLimit →
    List (String × RateLimit)
  | [], op, l => [(op, l)]
  | (k, v) :: rest, op, l =>
    if k = op then (k, l) :: rest else (k, v) :: setEntry rest op l

/-- The bucket `check_rate_limit` operates on: the existing one, or the
policy-fresh one inserted on first use. -/
def bucketOf (st : List (String × RateLimit)) (op : String) : RateLimit :=
  (getEntry st op).getD (policyFor op)

/-- The instants that survive the pruning step of `is_allowed`:
`now.duration_since(t) <= window_duration`, with `duration_since`
saturating at zero. -/
def keptOf (st : List (String × RateLimit)) (op : String) (now : Nat) :
    List Nat :=
  (bucketOf st op).requests.filter
    (fun t => decide (now - t ≤ (bucketOf st op).window_duration))

/-- The error message `check_rate_limit` formats on rejection. -/
def rateLimitMsg (operation : String) (mx win : Nat) : String :=
  "Rate limit exceeded for \x27" ++ operation ++ "\x27. Max " ++
    toString mx ++ " requests per " ++ toString win ++ " seconds"

/-- `RateLimiter::check_rate_limit` at instant `now`: fetch or create
the bucket, prune instants outside the window, then either record `now`
and admit, or reject with the formatted message without recording. -/
def checkRateLimit (st : List (String × RateLimit)) (operation : String)
    (now : Nat) : Except String Unit × List (String × RateLimit) :=
  let l := bucketOf st operation
  let kept := keptOf st operation now
  if kept.length < l.max_requests then
    (.ok (), setEntry st operation { l with requests := kept ++ [now] })
  else
    (.error (rateLimitMsg operation l.max_requests l.window_duration),
     setEntry st operation { l with requests := kept })

/-- Iterated checks of one operation at the given sequence of
instants. -/
def runChecks (st : List (String × RateLimit)) (operation : String) :
    List Nat → List (Except String Unit) × List (String × RateLimit)
  | [] => ([], st)
  | now :: rest =>
    let out := checkRateLimit st operation now
    let tail := runChecks out.2 operation rest
    (out.1 :: tail.1, tail.2)

/-! ## Token authority (`gmail_auth.rs`) -/

/-- `GmailAuth`: the per-login OAuth client with its anti-forgery
token.  The client configuration is fixed process data; the state that
matters to the session lifecycle is the CSRF token generated by
`get_auth_url`. -/
structure GmailAuth where
  csrf_token : Option String
deriving DecidableEq

/-- `GmailAuth::exchange_code`'s mapping from the provider's token
response to stored tokens: every field is taken as the provider sent
it. -/
def exchangeCode (resp : TokenResponse) : AuthTokens :=
  { access_token := resp.access_token
    refresh_token := resp.refresh_token
    expires_in := resp.expires_in }

/-- `GmailAuth::refresh_access_token`'s mapping from the provider's
refresh response, given the refresh token that was sent: the new
refresh token is the response's one `.or_else` the token the caller
supplied (the fallback happens here, inside the authority). -/
def refreshAccessToken (refresh_token : String) (resp : TokenResponse) :
    AuthTokens :=
  { access_token := resp.access_token
    refresh_token :=
      match resp.refresh_token with
      | some r => some r
      | none => some refresh_token
    expires_in := resp.expires_in }

/-! ## Command handlers (`main.rs`) -/

/-- Observable steps of a handler, in execution order: a rate-limiter
consultation, a read of the in-memory credential, an upstream network
call, a refresh request to the token endpoint, a persistence write. -/
inductive Event where
  | rateCheck (op : String)
  | credRead
  | netCall (what : String)
  | tokenRefresh
  | persist
deriving DecidableEq

/-- `Email` as `main.rs` returns it to the UI. -/
structure Email where
  id : String
  thread_id : String
  subject : String
  sender : String
  snippet : String
  is_read : Bool
deriving DecidableEq

/-- The mock inbox `get_emails` fabricates when authentication or
refresh fails: twenty emails, threads of three, alternating read
state. -/
def mockEmails : List Email :=
  (List.range 20).map (fun k =>
    let i := k + 1
    { id := "email_" ++ toString i
      thread_id := "thread_" ++ toString ((i - 1) / 3 + 1)
      subject := "Email Subject " ++ toString i
      sender := "sender" ++ toString i ++ "@example.com"
      snippet := "This is a preview of the email content..."
      is_read := i % 2 == 0 })

/-- Oracle outcomes for every upstream interaction a handler may
perform, plus the current instant.  Error strings carry the already
`to_string`-rendered text the handler would see. -/
structure NetEnv where
  now : Nat
  profileOk : Bool
  refreshResp : Except String TokenResponse
  emailsResult : Except String (List Email)
  statsResult : Except String (Nat × Nat)
  contentResult : Except String AuthTokens
  modifyResult : Except String Unit
  replyResult : Except String String
  newEmailsResult : Except String (List String)
  currentTime : String

/-- `AppState` from `main.rs` together with the process-external
keyring: the stored auth session, the in-memory credential, the last
new-mail check time, the rate limiter's buckets, and the OS keyring. -/
structure Sys where
  gmail_auth : Option GmailAuth
  auth_tokens : Option AuthTokens
  last_check_time : Option String
  rate_limiter : List (String × RateLimit)
  keyring : KeyringState

/-- `refresh_tokens_if_needed` from `main.rs`: read the in-memory
credential (fail `Not authenticated` when absent); probe it with a
`get_profile` call; on probe success return it unchanged; on probe
failure refresh through `GmailAuth::refresh_access_token` when a
refresh token is present (storing the result in memory first and then
persisting it), else fail `No refresh token available`.  Returns the
result, the updated state, and the event trace. -/
def refreshTokensIfNeeded (s : Sys) (env : NetEnv) :
    Except String AuthTokens × Sys × List Event :=
  match s.auth_tokens with
  | none => (.error "Not authenticated", s, [.credRead])
  | some tokens =>
    if env.profileOk then
      (.ok tokens, s, [.credRead, .netCall "get_profile"])
    else
      match tokens.refresh_token with
      | none =>
        (.error "No refresh token available", s,
         [.credRead, .netCall "get_profile"])
      | some rt =>
        match env.refreshResp with
        | .error e =>
          (.error e, s, [.credRead, .netCall "get_profile", .tokenRefresh])
        | .ok resp =>
          let nt := refreshAccessToken rt resp
          let s1 := { s with auth_tokens := some nt }
          match savePassword s1.keyring TOKEN_KEY (tokensToJson nt) with
          | .error e =>
            (.error ("Failed to save tokens: " ++ e), s1,
             [.credRead, .netCall "get_profile", .tokenRefresh])
          | .ok k2 =>
            (.ok nt, { s1 with keyring := k2 },
             [.credRead, .netCall "get_profile", .tokenRefresh, .persist])

/-- `get_emails`: rate-limit gate first (a failure is returned as-is);
then `refresh_tokens_if_needed`, whose failure is swallowed into the
mock inbox; then the Gmail list/batch fetch. -/
def getEmails (s : Sys) (env : NetEnv) :
    Except String (List Email) × Sys × List Event :=
  let rc := checkRateLimit s.rate_limiter "get_emails" env.now
  let s1 := { s with rate_limiter := rc.2 }
  match rc.1 with
  | .error e => (.error e, s1, [.rateCheck "get_emails"])
  | .ok _ =>
    let out := refreshTokensIfNeeded s1 env
    match out.1 with
    | .error _ =>
      (.ok mockEmails, out.2.1, .rateCheck "get_emails" :: out.2.2)
    | .ok _ =>
      (env.emailsResult, out.2.1,
       .rateCheck "get_emails" :: out.2.2 ++ [.netCall "list_messages"])

/-- `get_inbox_stats`: no rate-limit gate; `refresh_tokens_if_needed`
failure is swallowed into the mock pair `(6303, 3151)`; otherwise the
profile/unread queries produce the pair. -/
def getInboxStats (s : Sys) (env : NetEnv) :
    Except String (Nat × Nat) × Sys × List Event :=
  let out := refreshTokensIfNeeded s env
  match out.1 with
  | .error _ => (.ok (6303, 3151), out.2.1, out.2.2)
  | .ok _ =>
    (env.statsResult, out.2.1, out.2.2 ++ [.netCall "get_profile"])

/-- `get_email_content`: rate-limit gate first; then a direct read of
the in-memory credential (`Not authenticated` when absent, no refresh);
then the message fetch. -/
def getEmailContent (s : Sys) (env : NetEnv) :
    Except String AuthTokens × Sys × List Event :=
  let rc := checkRateLimit s.rate_limiter "get_email_content" env.now
  let s1 := { s with rate_limiter := rc.2 }
  match rc.1 with
  | .error e => (.error e, s1, [.rateCheck "get_email_content"])
  | .ok _ =>
    match s1.auth_tokens with
    | none =>
      (.error "Not authenticated", s1,
       [.rateCheck "get_email_content", .credRead])
    | some _ =>
      (env.contentResult, s1,
       [.rateCheck "get_email_content", .credRead, .netCall "get_message"])

/-- `mark_email_as_read`: no rate-limit gate; a credential failure is
propagated as `Authentication required: …`; then the modify call. -/
def markEmailAsRead (s : Sys) (env : NetEnv) :
    Except String String × Sys × List Event :=
  let out := refreshTokensIfNeeded s env
  match out.1 with
  | .error e => (.error ("Authentication required: " ++ e), out.2.1, out.2.2)
  | .ok _ =>
    match env.modifyResult with
    | .ok _ =>
      (.ok "Email marked as read", out.2.1,
       out.2.2 ++ [.netCall "modify_message"])
    | .error e =>
      (.error ("Failed to mark email as read: " ++ e), out.2.1,
       out.2.2 ++ [.netCall "modify_message"])

/-- `mark_email_as_unread`: same shape as `mark_email_as_read`. -/
def markEmailAsUnread (s : Sys) (env : NetEnv) :
    Except String String × Sys × List Event :=
  let out := refreshTokensIfNeeded s env
  match out.1 with
  | .error e => (.error ("Authentication required: " ++ e), out.2.1, out.2.2)
  | .ok _ =>
    match env.modifyResult with
    | .ok _ =>
      (.ok "Email marked as unread", out.2.1,
       out.2.2 ++ [.netCall "modify_message"])
    | .error e =>
      (.error ("Failed to mark email as unread: " ++ e), out.2.1,
       out.2.2 ++ [.netCall "modify_message"])

/-- `send_reply`: rate-limit gate first; a credential failure is
propagated as `Authentication required: …`; the original-message fetch,
reply construction and send are summarized by the oracle's
`replyResult`. -/
def sendReply (s : Sys) (env : NetEnv) :
    Except String String × Sys × List Event :=
  let rc := checkRateLimit s.rate_limiter "send_reply" env.now
  let s1 := { s with rate_limiter := rc.2 }
  match rc.1 with
  | .error e => (.error e, s1, [.rateCheck "send_reply"])
  | .ok _ =>
    let out := refreshTokensIfNeeded s1 env
    match out.1 with
    | .error e =>
      (.error ("Authentication required: " ++ e), out.2.1,
       .rateCheck "send_reply" :: out.2.2)
    | .ok _ =>
      (env.replyResult, out.2.1,
       .rateCheck "send_reply" :: out.2.2 ++
         [.netCall "get_message", .netCall "send_email"])

/-- `check_for_new_emails_since_last_check`: no rate-limit gate; a
credential failure is propagated as `Authentication required: …`; on a
successful upstream check the last-check time is overwritten with the
current Unix timestamp. -/
def checkForNewEmailsSinceLastCheck (s : Sys) (env : NetEnv) :
    Except String (List String) × Sys × List Event :=
  let out := refreshTokensIfNeeded s env
  match out.1 with
  | .error e => (.error ("Authentication required: " ++ e), out.2.1, out.2.2)
  | .ok _ =>
    match env.newEmailsResult with
    | .ok ids =>
      (.ok ids, { out.2.1 with last_check_time := some env.currentTime },
       out.2.2 ++ [.netCall "check_for_new_emails"])
    | .error e =>
      (.error e, out.2.1, out.2.2 ++ [.netCall "check_for_new_emails"])

/-- `start_gmail_auth`: build a fresh `GmailAuth`, generate the
authorization URL with a fresh anti-forgery token, and store the auth
session in the app state.  The URL construction inside the `oauth2`
crate is summarized by an opaque string containing the token. -/
def startGmailAuth (s : Sys) (freshCsrf : String) :
    Except String String × Sys :=
  (.ok ("https://accounts.google.com/o/oauth2/auth?state=" ++ freshCsrf),
   { s with gmail_auth := some ⟨some freshCsrf⟩ })

/-- `complete_gmail_auth`: parse the callback, read (clone, without
removing) the stored auth session, exchange the code through the
oracle's `exchangeResp`, store the tokens in memory and persist them.
The stored `gmail_auth` slot is left untouched throughout. -/
def completeGmailAuth (s : Sys) (callbackParams : List (String × String))
    (exchangeResp : Except String TokenResponse) :
    Except String String × Sys :=
  match parseCallbackUrl callbackParams with
  | .error e => (.error e, s)
  | .ok _ =>
    match s.gmail_auth with
    | none => (.error "No auth session found", s)
    | some _ =>
      match exchangeResp with
      | .error e => (.error e, s)
      | .ok resp =>
        let tokens := exchangeCode resp
        let s1 := { s with auth_tokens := some tokens }
        match savePassword s1.keyring TOKEN_KEY (tokensToJson tokens) with
        | .error e => (.error ("Failed to save tokens: " ++ e), s1)
        | .ok k2 =>
          (.ok "Authentication successful!", { s1 with keyring := k2 })

/-! ## Concrete fixtures for witnesses and counterexamples -/

/-- A sample stored credential. -/
def tok0 : AuthTokens := ⟨"A1", some "R1", some 3600⟩

/-- A refresh response that omits a new refresh token. -/
def respNoNewRT : TokenResponse := ⟨"A2", none, some 3600⟩

/-- A code-exchange response. -/
def respExchange : TokenResponse := ⟨"AT", some "RT", some 3600⟩

/-- An empty, reachable keyring. -/
def krEmpty : KeyringState := ⟨none, true⟩

/-- A baseline oracle: every upstream interaction fails on the
network. -/
def envBase : NetEnv :=
  ⟨0, false, .error "network", .error "network", .error "network",
   .error "network", .error "network", .error "network",
   .error "network", "0"⟩

/-- Oracle where the refresh endpoint answers `respNoNewRT`. -/
def envRefreshOk : NetEnv := { envBase with refreshResp := .ok respNoNewRT }

/-- Oracle where the credential probe succeeds and the stats queries
answer `(1, 1)`. -/
def envProbeOk : NetEnv :=
  { envBase with profileOk := true, statsResult := .ok (1, 1) }

/-- App state with no session, no credential, fresh limiter. -/
def sysNoTok : Sys := ⟨none, none, none, [], krEmpty⟩

/-- App state holding the sample credential. -/
def sysTok : Sys := ⟨none, some tok0, none, [], krEmpty⟩

/-- App state with the sample credential and the `get_inbox_stats`
bucket already at its cap of 20 within the current window. -/
def sysStatsExhausted : Sys :=
  ⟨none, some tok0, none,
   [("get_inbox_stats", ⟨List.replicate 20 0, 20, 60⟩)], krEmpty⟩

/-- App state with the sample credential and the `get_emails` bucket
already at its cap of 10 within the current window. -/
def sysEmailsExhausted : Sys :=
  ⟨none, some tok0, none,
   [("get_emails", ⟨List.replicate 10 0, 10, 60⟩)], krEmpty⟩

/-- A stored auth session awaiting its callback. -/
def authSession : GmailAuth := ⟨some "csrf123"⟩

/-- App state holding `authSession` and nothing else. -/
def sysWithSession : Sys := ⟨some authSession, none, none, [], krEmpty⟩

/-! ## Helper lemmas -/

theorem jsonToTokens_tokensToJson (t : AuthTokens) :
    jsonToTokens (tokensToJson t) = some t := by
  obtain ⟨a, rt, ei⟩ := t
  cases rt <;> cases ei <;> rfl

theorem fsRead_fsRemove (fs : List (String × Json)) (path : String) :
    fsRead (fsRemove fs path) path = none := by
  induction fs with
  | nil => rfl
  | cons pc rest ih =>
    obtain ⟨p, c⟩ := pc
    by_cases h : p = path
    · simpa [fsRemove, h] using ih
    · simp [fsRemove, fsRead, h, ih]

/-- `refresh_tokens_if_needed` never consults the rate limiter: no
`rateCheck` event occurs in its trace. -/
theorem refreshTokensIfNeeded_no_rateCheck (s : Sys) (env : NetEnv)
    (op : String) :
    Event.rateCheck op ∉ (refreshTokensIfNeeded s env).2.2 := by
  obtain ⟨ga, tok, lc, rl, kr⟩ := s
  cases tok with
  | none => simp [refreshTokensIfNeeded]
  | some tokens =>
    by_cases hp : env.profileOk
    · simp [refreshTokensIfNeeded, hp]
    · cases htok : tokens.refresh_token with
      | none => simp [refreshTokensIfNeeded, hp, htok]
      | some rt =>
        cases hr : env.refreshResp with
        | error e => simp [refreshTokensIfNeeded, hp, htok, hr]
        | ok resp =>
          cases hsp : savePassword kr TOKEN_KEY
              (tokensToJson (refreshAccessToken rt resp)) with
          | error e => simp [refreshTokensIfNeeded, hp, htok, hr, hsp]
          | ok k2 => simp [refreshTokensIfNeeded, hp, htok, hr, hsp]

/-- Characterization of the successful-refresh path of
`refresh_tokens_if_needed`: probe fails, a refresh token is present,
the endpoint answers, the keyring is reachable. -/
theorem refreshTokensIfNeeded_refresh_ok (s : Sys) (env : NetEnv)
    (tokens : AuthTokens) (rt : String) (resp : TokenResponse)
    (h1 : s.auth_tokens = some tokens) (h2 : env.profileOk = false)
    (h3 : tokens.refresh_token = some rt)
    (h4 : env.refreshResp = Except.ok resp)
    (h5 : s.keyring.available = true) :
    refreshTokensIfNeeded s env =
      (Except.ok (refreshAccessToken rt resp),
       { s with
         auth_tokens := some (refreshAccessToken rt resp)
         keyring := { s.keyring with
                      entry := some (tokensToJson (refreshAccessToken rt resp)) } },
       [Event.credRead, Event.netCall "get_profile", Event.tokenRefresh,
        Event.persist]) := by
  obtain ⟨ga, tok, lc, rl, kr⟩ := s
  obtain ⟨ke, ka⟩ := kr
  simp only at h1 h5
  subst h1 h5
  simp [refreshTokensIfNeeded, h2, h3, h4, savePassword]

/-! ## Claims -/

/-- C9: for every credential value (access_token, refresh_token,
expires_in), `save_tokens` followed by `load_tokens` on the same store
returns a credential equal to the original in all three fields. -/
theorem c9_save_load_roundtrip (st : KeyringState) (t : AuthTokens)
    (st2 : KeyringState) (h : saveTokens st t = Except.ok st2) :
    loadTokens st2 = Except.ok t := by
  unfold saveTokens savePassword at h
  split at h
  · rename_i ha
    rw [Except.ok.injEq] at h
    subst h
    simp [loadTokens, getPassword, ha, jsonToTokens_tokensToJson]
  · exact Except.noConfusion h

/-- C9 witness: the round trip at a concrete credential. -/
theorem c9_save_load_roundtrip_witness :
    loadTokens ⟨some (tokensToJson ⟨"A1", some "R1", some 3600⟩), true⟩ =
      Except.ok ⟨"A1", some "R1", some 3600⟩ :=
  c9_save_load_roundtrip ⟨none, true⟩ ⟨"A1", some "R1", some 3600⟩ _ rfl

/-- C10: every method of the production `KeyringBackend` ignores its
key argument and operates on the single fixed entry; consequently a
value saved under `k1` is returned by `get_password(k2)`, and
`delete_password(k1)` removes the value observable under `k2`. -/
theorem c10_keyring_ignores_key :
    (∀ st k1 k2 v, savePassword st k1 v = savePassword st k2 v) ∧
    (∀ st k1 k2, getPassword st k1 = getPassword st k2) ∧
    (∀ st k1 k2, deletePassword st k1 = deletePassword st k2) ∧
    (∀ st k1 k2, hasPassword st k1 = hasPassword st k2) ∧
    (∀ st k1 k2 v st2, savePassword st k1 v = Except.ok st2 →
        getPassword st2 k2 = Except.ok v ∧ hasPassword st2 k2 = true) ∧
    (∀ st k1 k2 st2, deletePassword st k1 = Except.ok st2 →
        getPassword st2 k2 = Except.error "No tokens found in keyring" ∧
        hasPassword st2 k2 = false) := by
  refine ⟨fun _ _ _ _ => rfl, fun _ _ _ => rfl, fun _ _ _ => rfl,
          fun _ _ _ => rfl, ?_, ?_⟩
  · intro st k1 k2 v st2 h
    unfold savePassword at h
    split at h
    · rename_i ha
      rw [Except.ok.injEq] at h
      subst h
      simp [getPassword, hasPassword, ha]
    · exact Except.noConfusion h
  · intro st k1 k2 st2 h
    unfold deletePassword at h
    split at h
    · rename_i ha
      rw [Except.ok.injEq] at h
      subst h
      simp [getPassword, hasPassword, ha]
    · exact Except.noConfusion h

/-- C10 witness: a blob saved under one key is read back under a
different key. -/
theorem c10_keyring_ignores_key_witness :
    getPassword ⟨some (Json.str "blob"), true⟩ "some_other_key" =
      Except.ok (Json.str "blob") :=
  (c10_keyring_ignores_key.2.2.2.2.1 ⟨none, true⟩ "key_one"
    "some_other_key" (Json.str "blob") _ rfl).1

/-- C7: `migrate_from_file` on a missing path returns `Ok(false)` and
writes nothing; on an existing parsable file it saves the credential,
deletes the file and returns `Ok(true)`; on an existing unparsable file
it returns an error with the legacy file left in place unmodified. -/
theorem c7_migrate_from_file (s : StoreFs) (path : String) :
    (fsRead s.fs path = none → migrateFromFile s path = (.ok false, s)) ∧
    (∀ j t, fsRead s.fs path = some j → jsonToTokens j = some t →
        s.store.available = true →
        migrateFromFile s path =
          (.ok true,
           ⟨{ s.store with entry := some (tokensToJson t) },
            fsRemove s.fs path⟩) ∧
        fsRead (fsRemove s.fs path) path = none ∧
        loadTokens { s.store with entry := some (tokensToJson t) } =
          Except.ok t) ∧
    (∀ j, fsRead s.fs path = some j → jsonToTokens j = none →
        migrateFromFile s path =
          (.error "Failed to parse token file", s)) := by
  refine ⟨?_, ?_, ?_⟩
  · intro h
    simp [migrateFromFile, h]
  · intro j t hj ht ha
    refine ⟨?_, fsRead_fsRemove s.fs path, ?_⟩
    · simp [migrateFromFile, hj, ht, saveTokens, savePassword, ha]
    · simp [loadTokens, getPassword, ha, jsonToTokens_tokensToJson]
  · intro j hj ht
    simp [migrateFromFile, hj, ht]

/-- C7 witness: migrating a concrete valid legacy file stores the
parsed credential, removes the file, and loads back the same value. -/
theorem c7_migrate_from_file_witness :
    migrateFromFile
        ⟨⟨none, true⟩, [("tokens.json", tokensToJson tok0)]⟩ "tokens.json" =
      (.ok true, ⟨⟨some (tokensToJson tok0), true⟩, []⟩) :=
  ((c7_migrate_from_file ⟨⟨none, true⟩, [("tokens.json", tokensToJson tok0)]⟩
      "tokens.json").2.1 (tokensToJson tok0) tok0 rfl
      (jsonToTokens_tokensToJson tok0) rfl).1

/-- C8: `parse_callback_url` fails with the provider's error string
whenever an `error` parameter is present (even alongside `code`); fails
with a no-authorization-code error when neither `error` nor `code` is
present; and returns the code with the optional state otherwise. -/
theorem c8_parse_callback (params : List (String × String)) :
    (∀ e, hashMapGet params "error" = some e →
        parseCallbackUrl params = .error ("OAuth error: " ++ e)) ∧
    (hashMapGet params "error" = none → hashMapGet params "code" = none →
        parseCallbackUrl params = .error "No authorization code found") ∧
    (parseCallbackUrl [("code", "ABC"), ("state", "XYZ")] =
      .ok ("ABC", some "XYZ")) ∧
    (parseCallbackUrl [("code", "ABC")] = .ok ("ABC", none)) ∧
    (parseCallbackUrl [("error", "access_denied"), ("code", "ABC")] =
      .error "OAuth error: access_denied") := by
  refine ⟨?_, ?_, rfl, rfl, rfl⟩
  · intro e he
    simp [parseCallbackUrl, he]
  · intro he hc
    simp [parseCallbackUrl, he, hc]

/-- C8 witness: the error-parameter branch at a concrete URL query. -/
theorem c8_parse_callback_witness :
    parseCallbackUrl [("error", "bad_request")] =
      .error "OAuth error: bad_request" :=
  (c8_parse_callback [("error", "bad_request")]).1 "bad_request" rfl

/-- C5: the sliding-window law of `check_rate_limit`: a call whose
pruned bucket is below the cap succeeds and records its instant; a call
at the cap fails with the message naming the operation, the cap and the
window seconds, recording nothing; once the window has elapsed past all
recorded instants a call succeeds again; and for `get_emails`
(10 per 60 s) ten calls in one window all succeed, the eleventh fails
with exactly that message, and a call after the window succeeds. -/
theorem c5_sliding_window :
    (∀ st op now,
        (keptOf st op now).length < (bucketOf st op).max_requests →
        checkRateLimit st op now =
          (.ok (),
           setEntry st op
             { bucketOf st op with requests := keptOf st op now ++ [now] })) ∧
    (∀ st op now,
        ¬ (keptOf st op now).length < (bucketOf st op).max_requests →
        checkRateLimit st op now =
          (.error (rateLimitMsg op (bucketOf st op).max_requests
                     (bucketOf st op).window_duration),
           setEntry st op
             { bucketOf st op with requests := keptOf st op now })) ∧
    (∀ st op now,
        (∀ t ∈ (bucketOf st op).requests,
            (bucketOf st op).window_duration < now - t) →
        0 < (bucketOf st op).max_requests →
        (checkRateLimit st op now).1 = .ok ()) ∧
    (policyFor "get_emails" = ⟨[], 10, 60⟩) ∧
    ((runChecks [] "get_emails" (List.replicate 11 0)).1 =
      List.replicate 10 (.ok ()) ++
        [.error (rateLimitMsg "get_emails" 10 60)]) ∧
    ((checkRateLimit (runChecks [] "get_emails" (List.replicate 11 0)).2
        "get_emails" 61).1 = .ok ()) := by
  refine ⟨?_, ?_, ?_, rfl, rfl, rfl⟩
  · intro st op now h
    simp [checkRateLimit, h]
  · intro st op now h
    simp [checkRateLimit, h]
  · intro st op now hall hmax
    have hkept : keptOf st op now = [] := by
      rw [keptOf, List.filter_eq_nil_iff]
      intro t ht
      simpa using Nat.not_le_of_lt (hall t ht)
    simp [checkRateLimit, hkept, hmax]

/-- C5 witness: a first call on a fresh limiter is admitted. -/
theorem c5_sliding_window_witness :
    (checkRateLimit [] "get_emails" 0).1 = Except.ok () := by
  have h := c5_sliding_window.1 [] "get_emails" 0 (by decide)
  rw [h]

/-- C3 counterexample: when the provider's refresh response omits a new
refresh token, `refresh_access_token` does NOT return `None` for the
refresh_token field — it already substitutes the previously supplied
token itself (`.or_else` in `gmail_auth.rs`), so the claimed division
of labor (authority returns `None`, caller substitutes) is false. -/
theorem c3_counterexample :
    (refreshAccessToken "R1" respNoNewRT).refresh_token = some "R1" ∧
    (refreshAccessToken "R1" respNoNewRT).refresh_token ≠ none := by
  refine ⟨rfl, ?_⟩
  intro h
  simp [refreshAccessToken, respNoNewRT] at h

/-- C3 (amended): when the provider's refresh response contains no new
refresh token, `refresh_access_token` itself substitutes the refresh
token it was given into the returned credential, and the caller
(`refresh_tokens_if_needed`) stores that returned credential
unchanged. -/
theorem c3_refresh_substitution :
    (∀ rt resp, resp.refresh_token = none →
        (refreshAccessToken rt resp).refresh_token = some rt) ∧
    (∀ s env tokens rt resp,
        s.auth_tokens = some tokens → env.profileOk = false →
        tokens.refresh_token = some rt →
        env.refreshResp = Except.ok resp → s.keyring.available = true →
        (refreshTokensIfNeeded s env).1 =
          Except.ok (refreshAccessToken rt resp) ∧
        (refreshTokensIfNeeded s env).2.1.auth_tokens =
          some (refreshAccessToken rt resp)) := by
  constructor
  · intro rt resp h
    simp [refreshAccessToken, h]
  · intro s env tokens rt resp h1 h2 h3 h4 h5
    rw [refreshTokensIfNeeded_refresh_ok s env tokens rt resp h1 h2 h3 h4 h5]
    exact ⟨rfl, rfl⟩

/-- C3 witness: the substitution at a concrete refresh response. -/
theorem c3_refresh_substitution_witness :
    (refreshAccessToken "R1" respNoNewRT).refresh_token = some "R1" :=
  c3_refresh_substitution.1 "R1" respNoNewRT rfl

/-- C4: if the current credential's refresh_token is `Some r1`, the
probe fails, and the refresh succeeds with a response omitting a new
refresh token, then the credential produced by the refresh path —
returned, stored in memory, and persisted — has refresh_token
`Some r1`: a missing new refresh token never erases the stored one. -/
theorem c4_refresh_retains_token (s : Sys) (env : NetEnv)
    (tokens : AuthTokens) (r1 : String) (resp : TokenResponse)
    (h1 : s.auth_tokens = some tokens) (h3 : tokens.refresh_token = some r1)
    (h2 : env.profileOk = false) (h4 : env.refreshResp = Except.ok resp)
    (h6 : resp.refresh_token = none) (h5 : s.keyring.available = true) :
    (refreshTokensIfNeeded s env).1 =
      Except.ok (refreshAccessToken r1 resp) ∧
    (refreshAccessToken r1 resp).refresh_token = some r1 ∧
    (refreshTokensIfNeeded s env).2.1.auth_tokens =
      some (refreshAccessToken r1 resp) ∧
    loadTokens (refreshTokensIfNeeded s env).2.1.keyring =
      Except.ok (refreshAccessToken r1 resp) := by
  rw [refreshTokensIfNeeded_refresh_ok s env tokens r1 resp h1 h2 h3 h4 h5]
  refine ⟨rfl, ?_, rfl, ?_⟩
  · simp [refreshAccessToken, h6]
  · simp [loadTokens, getPassword, h5, jsonToTokens_tokensToJson]

/-- C4 witness: the retention at a concrete state and refresh
response. -/
theorem c4_refresh_retains_token_witness :
    (refreshTokensIfNeeded sysTok envRefreshOk).1 =
      Except.ok (refreshAccessToken "R1" respNoNewRT) ∧
    (refreshAccessToken "R1" respNoNewRT).refresh_token = some "R1" ∧
    (refreshTokensIfNeeded sysTok envRefreshOk).2.1.auth_tokens =
      some (refreshAccessToken "R1" respNoNewRT) ∧
    loadTokens (refreshTokensIfNeeded sysTok envRefreshOk).2.1.keyring =
      Except.ok (refreshAccessToken "R1" respNoNewRT) :=
  c4_refresh_retains_token sysTok envRefreshOk tok0 "R1" respNoNewRT
    rfl rfl rfl rfl rfl rfl

/-- C6 counterexample: after a successful code exchange the stored
session is NOT discarded — `state.gmail_auth` still holds it, and a
second `complete_gmail_auth` against the same stored session performs a
second successful exchange. -/
theorem c6_counterexample :
    (completeGmailAuth sysWithSession [("code", "ABC")]
        (.ok respExchange)).1 = .ok "Authentication successful!" ∧
    (completeGmailAuth sysWithSession [("code", "ABC")]
        (.ok respExchange)).2.gmail_auth = some authSession ∧
    (completeGmailAuth
        (completeGmailAuth sysWithSession [("code", "ABC")]
          (.ok respExchange)).2
        [("code", "DEF")] (.ok respExchange)).1 =
      .ok "Authentication successful!" :=
  ⟨rfl, rfl, rfl⟩

/-- C6 (amended): `start_gmail_auth` stores the session, but
`complete_gmail_auth` only reads (clones) it and leaves
`state.gmail_auth` untouched in every outcome of the exchange, so the
stored session survives the exchange and remains usable for further
exchanges. -/
theorem c6_session_not_discarded :
    (∀ s params ex,
        (completeGmailAuth s params ex).2.gmail_auth = s.gmail_auth) ∧
    (∀ s c, (startGmailAuth s c).2.gmail_auth = some ⟨some c⟩) := by
  constructor
  · intro s params ex
    unfold completeGmailAuth
    cases parseCallbackUrl params with
    | error e => rfl
    | ok cs =>
      cases hga : s.gmail_auth with
      | none => simp [hga]
      | some a =>
        cases ex with
        | error e => simp [hga]
        | ok resp =>
          cases hsp : savePassword s.keyring TOKEN_KEY
              (tokensToJson (exchangeCode resp)) with
          | error e => simp [hga, hsp]
          | ok k2 => simp [hga, hsp]
  · intro s c
    rfl

/-- C1 counterexample: `get_inbox_stats` performs credential logic and
an upstream call without ever consulting the rate limiter — even with
its bucket exhausted (so that `check_rate_limit("get_inbox_stats")`
would fail) the handler emits no rate-check event and succeeds. -/
theorem c1_counterexample :
    (checkRateLimit sysStatsExhausted.rate_limiter "get_inbox_stats" 0).1 =
      .error (rateLimitMsg "get_inbox_stats" 20 60) ∧
    (getInboxStats sysStatsExhausted envProbeOk).1 = .ok (1, 1) ∧
    Event.rateCheck "get_inbox_stats" ∉
      (getInboxStats sysStatsExhausted envProbeOk).2.2 ∧
    Event.netCall "get_profile" ∈
      (getInboxStats sysStatsExhausted envProbeOk).2.2 :=
  ⟨rfl, rfl, by decide, by decide⟩

/-- C1 (amended): of the seven privileged handlers, exactly
`get_emails`, `get_email_content` and `send_reply` call
`check_rate_limit` with their operation name as their first step and
return a rate-limit error unchanged without any credential read,
refresh or upstream call; `get_inbox_stats`, `mark_email_as_read`,
`mark_email_as_unread` and `check_for_new_emails_since_last_check`
never consult the rate limiter at all. -/
theorem c1_rate_gating :
    (∀ s env, ((getEmails s env).2.2).head? =
        some (Event.rateCheck "get_emails")) ∧
    (∀ s env e,
        (checkRateLimit s.rate_limiter "get_emails" env.now).1 = .error e →
        (getEmails s env).1 = .error e ∧
        (getEmails s env).2.2 = [Event.rateCheck "get_emails"]) ∧
    (∀ s env, ((getEmailContent s env).2.2).head? =
        some (Event.rateCheck "get_email_content")) ∧
    (∀ s env e,
        (checkRateLimit s.rate_limiter "get_email_content" env.now).1 =
          .error e →
        (getEmailContent s env).1 = .error e ∧
        (getEmailContent s env).2.2 = [Event.rateCheck "get_email_content"]) ∧
    (∀ s env, ((sendReply s env).2.2).head? =
        some (Event.rateCheck "send_reply")) ∧
    (∀ s env e,
        (checkRateLimit s.rate_limiter "send_reply" env.now).1 = .error e →
        (sendReply s env).1 = .error e ∧
        (sendReply s env).2.2 = [Event.rateCheck "send_reply"]) ∧
    (∀ s env op, Event.rateCheck op ∉ (getInboxStats s env).2.2) ∧
    (∀ s env op, Event.rateCheck op ∉ (markEmailAsRead s env).2.2) ∧
    (∀ s env op, Event.rateCheck op ∉ (markEmailAsUnread s env).2.2) ∧
    (∀ s env op,
        Event.rateCheck op ∉ (checkForNewEmailsSinceLastCheck s env).2.2) := by
  refine ⟨?_, ?_, ?_, ?_, ?_, ?_, ?_, ?_, ?_, ?_⟩
  · intro s env
    cases hrc : (checkRateLimit s.rate_limiter "get_emails" env.now).1 with
    | error e => simp [getEmails, hrc]
    | ok u =>
      cases hrt : (refreshTokensIfNeeded
          { s with rate_limiter :=
              (checkRateLimit s.rate_limiter "get_emails" env.now).2 }
          env).1 with
      | error e => simp [getEmails, hrc, hrt]
      | ok t => simp [getEmails, hrc, hrt]
  · intro s env e h
    constructor <;> simp [getEmails, h]
  · intro s env
    cases hrc : (checkRateLimit s.rate_limiter "get_email_content" env.now).1 with
    | error e => simp [getEmailContent, hrc]
    | ok u =>
      cases hat : s.auth_tokens with
      | none => simp [getEmailContent, hrc, hat]
      | some t => simp [getEmailContent, hrc, hat]
  · intro s env e h
    constructor <;> simp [getEmailContent, h]
  · intro s env
    cases hrc : (checkRateLimit s.rate_limiter "send_reply" env.now).1 with
    | error e => simp [sendReply, hrc]
    | ok u =>
      cases hrt : (refreshTokensIfNeeded
          { s with rate_limiter :=
              (checkRateLimit s.rate_limiter "send_reply" env.now).2 }
          env).1 with
      | error e => simp [sendReply, hrc, hrt]
      | ok t => simp [sendReply, hrc, hrt]
  · intro s env e h
    constructor <;> simp [sendReply, h]
  · intro s env op
    have h := refreshTokensIfNeeded_no_rateCheck s env op
    cases hrt : (refreshTokensIfNeeded s env).1 with
    | error e => simpa [getInboxStats, hrt] using h
    | ok t => simpa [getInboxStats, hrt, List.mem_append] using h
  · intro s env op
    have h := refreshTokensIfNeeded_no_rateCheck s env op
    cases hrt : (refreshTokensIfNeeded s env).1 with
    | error e => simpa [markEmailAsRead, hrt] using h
    | ok t =>
      cases hm : env.modifyResult with
      | error e => simpa [markEmailAsRead, hrt, hm, List.mem_append] using h
      | ok u => simpa [markEmailAsRead, hrt, hm, List.mem_append] using h
  · intro s env op
    have h := refreshTokensIfNeeded_no_rateCheck s env op
    cases hrt : (refreshTokensIfNeeded s env).1 with
    | error e => simpa [markEmailAsUnread, hrt] using h
    | ok t =>
      cases hm : env.modifyResult with
      | error e => simpa [markEmailAsUnread, hrt, hm, List.mem_append] using h
      | ok u => simpa [markEmailAsUnread, hrt, hm, List.mem_append] using h
  · intro s env op
    have h := refreshTokensIfNeeded_no_rateCheck s env op
    cases hrt : (refreshTokensIfNeeded s env).1 with
    | error e => simpa [checkForNewEmailsSinceLastCheck, hrt] using h
    | ok t =>
      cases hm : env.newEmailsResult with
      | error e =>
        simpa [checkForNewEmailsSinceLastCheck, hrt, hm, List.mem_append]
          using h
      | ok ids =>
        simpa [checkForNewEmailsSinceLastCheck, hrt, hm, List.mem_append]
          using h

/-- C1 witness: with the `get_emails` bucket exhausted, the handler
returns the rate-limit error and performs nothing else. -/
theorem c1_rate_gating_witness :
    (getEmails sysEmailsExhausted envProbeOk).1 =
      .error (rateLimitMsg "get_emails" 10 60) :=
  (c1_rate_gating.2.1 sysEmailsExhausted envProbeOk
    (rateLimitMsg "get_emails" 10 60) rfl).1

/-- C2 counterexample: `get_emails` swallows a `NotAuthenticated`
failure silently — with no stored credential,
`refresh_tokens_if_needed` fails with `Not authenticated`, yet the
handler returns success with a fabricated mock inbox instead of the
typed failure; `get_inbox_stats` likewise returns the mock pair.  These
are exceptions beyond the two the claim allows. -/
theorem c2_counterexample :
    (refreshTokensIfNeeded sysNoTok envBase).1 =
      .error "Not authenticated" ∧
    (getEmails sysNoTok envBase).1 = .ok mockEmails ∧
    (getInboxStats sysNoTok envBase).1 = .ok (6303, 3151) :=
  ⟨rfl, rfl, rfl⟩

/-- C2 (amended): credential failures propagate as typed results to the
command layer in `mark_email_as_read`, `mark_email_as_unread`,
`check_for_new_emails_since_last_check`, `send_reply` and
`get_email_content`; delete of an absent stored item is success and an
exists check on backend error is false; but additionally `get_emails`
and `get_inbox_stats` swallow every credential failure by returning
mock data as success. -/
theorem c2_error_propagation :
    (∀ s env e,
        (checkRateLimit s.rate_limiter "get_emails" env.now).1 = .ok () →
        (refreshTokensIfNeeded
            { s with rate_limiter :=
                (checkRateLimit s.rate_limiter "get_emails" env.now).2 }
            env).1 = .error e →
        (getEmails s env).1 = .ok mockEmails) ∧
    (∀ s env e, (refreshTokensIfNeeded s env).1 = .error e →
        (getInboxStats s env).1 = .ok (6303, 3151)) ∧
    (∀ s env e, (refreshTokensIfNeeded s env).1 = .error e →
        (markEmailAsRead s env).1 =
          .error ("Authentication required: " ++ e) ∧
        (markEmailAsUnread s env).1 =
          .error ("Authentication required: " ++ e) ∧
        (checkForNewEmailsSinceLastCheck s env).1 =
          .error ("Authentication required: " ++ e)) ∧
    (∀ s env e,
        (checkRateLimit s.rate_limiter "send_reply" env.now).1 = .ok () →
        (refreshTokensIfNeeded
            { s with rate_limiter :=
                (checkRateLimit s.rate_limiter "send_reply" env.now).2 }
            env).1 = .error e →
        (sendReply s env).1 =
          .error ("Authentication required: " ++ e)) ∧
    (∀ s env,
        (checkRateLimit s.rate_limiter "get_email_content" env.now).1 =
          .ok () →
        s.auth_tokens = none →
        (getEmailContent s env).1 = .error "Not authenticated") ∧
    (∀ st : KeyringState, st.available = true → st.entry = none →
        deleteTokens st = .ok st) ∧
    (∀ st : KeyringState, st.available = false → hasTokens st = false) := by
  refine ⟨?_, ?_, ?_, ?_, ?_, ?_, ?_⟩
  · intro s env e h1 h2
    simp [getEmails, h1, h2]
  · intro s env e h
    simp [getInboxStats, h]
  · intro s env e h
    exact ⟨by simp [markEmailAsRead, h], by simp [markEmailAsUnread, h],
           by simp [checkForNewEmailsSinceLastCheck, h]⟩
  · intro s env e h1 h2
    simp [sendReply, h1, h2]
  · intro s env h1 h2
    simp [getEmailContent, h1, h2]
  · intro st ha he
    obtain ⟨e, a⟩ := st
    simp only at ha he
    subst ha he
    simp [deleteTokens, deletePassword]
  · intro st ha
    simp [hasTokens, hasPassword, ha]

/-- C2 witness: `get_inbox_stats` on an unauthenticated state maps the
`Not authenticated` failure to the mock pair. -/
theorem c2_error_propagation_witness :
    (getInboxStats sysNoTok envBase).1 = .ok (6303, 3151) :=
  c2_error_propagation.2.1 sysNoTok envBase "Not authenticated" rfl
